import Mathlib

/-!
Shallow embedding of the calibration and area-computation engine of
`app.py` (Hekwerk-oppervlakte-calculator), together with theorems that
settle the specification claims about it.

Modelling conventions.
Python floats are modelled as real numbers (`ℝ`); `math.hypot` is the
exact Euclidean norm via `Real.sqrt`, and `math.pi` is `Real.pi`.
`round(x, d)` is modelled as rounding `x * 10 ^ d` to the nearest integer
and scaling back (Mathlib's `round` rounds halves up, Python rounds
halves to even; no statement below sits on a tie, so the difference is
immaterial).  The session dictionaries (`st.session_state.page_scales`,
`st.session_state.diameter_overrides`) are modelled as insertion-ordered
association lists with `dictGet`/`dictSet` mirroring `dict.get` and item
assignment.
-/

/-- Python `round(x, d)`: scale by `10 ^ d`, round to the nearest integer,
scale back. -/
noncomputable def roundTo (d : ℕ) (x : ℝ) : ℝ := ((round (x * 10 ^ d) : ℤ) : ℝ) / 10 ^ d

/-- Python `x or dflt` applied to an optional float table cell (app.py
lines 301, 304, 305): `None` and `0.0` are falsy and fall back to the
default. -/
noncomputable def pyOr (x : Option ℝ) (dflt : ℝ) : ℝ :=
  match x with
  | none => dflt
  | some v => if v = 0 then dflt else v

/-- `dict.get k` on an insertion-ordered association list. -/
def dictGet {κ : Type} [DecidableEq κ] : List (κ × ℝ) → κ → Option ℝ
  | [], _ => none
  | p :: t, k => if p.1 = k then some p.2 else dictGet t k

/-- `d[k] = v` on an insertion-ordered association list: overwrite the
existing entry in place, otherwise append at the end (CPython dicts keep
insertion order). -/
def dictSet {κ : Type} [DecidableEq κ] : List (κ × ℝ) → κ → ℝ → List (κ × ℝ)
  | [], k, v => [(k, v)]
  | p :: t, k, v => if p.1 = k then (k, v) :: t else p :: dictSet t k v

/-- A fabric.js canvas object as read by `app.py` through `o.get(...)`:
`type` is `"rect"` for drawn rectangles and `"line"` for drawn line
segments; the remaining fields are the pixel-space attributes consumed by
the computation. -/
structure CanvasObj where
  type : String
  width : ℝ
  height : ℝ
  scaleX : ℝ
  scaleY : ℝ
  x1 : ℝ
  y1 : ℝ
  x2 : ℝ
  y2 : ℝ

/-- Euclidean pixel length of a drawn line object:
`math.hypot(x2 - x1, y2 - y1)` (app.py lines 163-164 and 251-252). -/
noncomputable def lineLen (o : CanvasObj) : ℝ :=
  Real.sqrt ((o.x2 - o.x1) ^ 2 + (o.y2 - o.y1) ^ 2)

/-- One step of the calibration scan (app.py lines 161-166): a line
object longer than the running maximum replaces it. -/
noncomputable def ml_step (m : ℝ) (o : CanvasObj) : ℝ :=
  if o.type = "line" then (if lineLen o > m then lineLen o else m) else m

/-- `max_len` over the scale-canvas objects, starting from `0.0`
(app.py lines 160-166). -/
noncomputable def max_len (objs : List CanvasObj) : ℝ := objs.foldl ml_step 0

/-- Scale resolution for the current page (app.py lines 158-176).  When
the longest calibration line and the target length are both positive,
`px_per_mm = max_len / scale_len_mm` is stored for the page (overwriting
any prior value) and returned; otherwise the stored value (or `none` if
never set) is returned and the table is left untouched. -/
noncomputable def resolve_scale (objs : List CanvasObj) (scale_len_mm : ℝ)
    (page_scales : List (ℤ × ℝ)) (page_idx : ℤ) : Option ℝ × List (ℤ × ℝ) :=
  if 0 < max_len objs ∧ 0 < scale_len_mm then
    (some (max_len objs / scale_len_mm),
      dictSet page_scales page_idx (max_len objs / scale_len_mm))
  else (dictGet page_scales page_idx, page_scales)

/-- One row of the result table (app.py lines 236-246 and 259-269).
Field names follow the Dutch column names: `breedte`/`hoogte` are
`"Breedte (mm)"`/`"Hoogte (mm)"`, `lengte` is `"Lengte (m)"`, and
`oppervlakte` is `"Oppervlakte (m²)"`; cells unused by a variant hold
`none`. -/
structure Row where
  pagina : String
  type : String
  id : String
  breedte : Option ℝ
  hoogte : Option ℝ
  dubbelzijdig : Option Bool
  diameter : Option ℝ
  lengte : Option ℝ
  oppervlakte : ℝ

/-- The branch test `r["Type"] == "Paneel"` of `recompute_surfaces`
(app.py line 300). -/
def isPanel (r : Row) : Bool := r.type == "Paneel"

/-- Unrounded panel area (app.py lines 229-235): absolute pixel width and
height times the fabric scale factors, converted through `px_per_mm`,
doubled afterwards when `coat_both_sides` is set. -/
noncomputable def panelArea (coat_both_sides : Bool) (px_per_mm : ℝ) (o : CanvasObj) : ℝ :=
  let w_mm := |o.width| * o.scaleX / px_per_mm
  let h_mm := |o.height| * o.scaleY / px_per_mm
  if coat_both_sides then w_mm * h_mm / 1000000 * 2 else w_mm * h_mm / 1000000

/-- The result row appended for the `i`-th (1-based) panel object
(app.py lines 227-246). -/
noncomputable def panelRow (page_label : String) (coat_both_sides : Bool) (px_per_mm : ℝ)
    (i : ℕ) (o : CanvasObj) : Row :=
  let w_mm := |o.width| * o.scaleX / px_per_mm
  let h_mm := |o.height| * o.scaleY / px_per_mm
  { pagina := page_label
    type := "Paneel"
    id := page_label ++ "-panel-" ++ toString i
    breedte := some (roundTo 1 w_mm)
    hoogte := some (roundTo 1 h_mm)
    dubbelzijdig := some coat_both_sides
    diameter := none
    lengte := none
    oppervlakte := roundTo 4 (panelArea coat_both_sides px_per_mm o) }

/-- The panel part of the row computation (app.py lines 226-246):
`enumerate(panel_objs, start=1)` with the `type == "rect"` guard. -/
noncomputable def panelRows (page_label : String) (coat_both_sides : Bool) (px_per_mm : ℝ)
    (objs : List CanvasObj) : List Row :=
  (objs.enumFrom 1).filterMap
    (fun p => if p.2.type = "rect" then some (panelRow page_label coat_both_sides px_per_mm p.1 p.2) else none)

/-- The result row appended for the `i`-th (1-based) post object
(app.py lines 249-269). -/
noncomputable def postRow (page_label : String) (default_post_diameter_mm : ℝ)
    (diameter_overrides : List (String × ℝ)) (px_per_mm : ℝ) (i : ℕ) (o : CanvasObj) : Row :=
  let L_px := lineLen o
  let L_mm := L_px / px_per_mm
  let L_m := L_mm / 1000
  let obj_id := page_label ++ "-post-" ++ toString i
  let dia_override := (dictGet diameter_overrides obj_id).getD default_post_diameter_mm
  let circumference_mm := Real.pi * dia_override
  let mantle_m2 := circumference_mm * L_mm / 1000000
  { pagina := page_label
    type := "Paal/Buis"
    id := obj_id
    breedte := none
    hoogte := none
    dubbelzijdig := none
    diameter := some (roundTo 1 dia_override)
    lengte := some (roundTo 3 L_m)
    oppervlakte := roundTo 4 mantle_m2 }

/-- The post part of the row computation (app.py lines 248-269):
`enumerate(post_objs, start=1)` with the `type == "line"` guard. -/
noncomputable def postRows (page_label : String) (default_post_diameter_mm : ℝ)
    (diameter_overrides : List (String × ℝ)) (px_per_mm : ℝ)
    (objs : List CanvasObj) : List Row :=
  (objs.enumFrom 1).filterMap
    (fun p => if p.2.type = "line" then
        some (postRow page_label default_post_diameter_mm diameter_overrides px_per_mm p.1 p.2)
      else none)

/-- Loop state of `recompute_surfaces` (app.py lines 295-298): the rows
accumulated so far, the three running totals, and the override dictionary
being written to. -/
structure RecAcc where
  out_rows : List Row
  panel_area : ℝ
  post_area : ℝ
  post_len_total : ℝ
  overrides : List (String × ℝ)

/-- One iteration of the `recompute_surfaces` loop (app.py lines
299-313): a panel row passes through and its stored area is summed; any
other row has its area re-derived from the `"Lengte (m)"` and
`"Diameter (mm)"` cells, and its diameter is written back into the
override dictionary. -/
noncomputable def recompute_step (default_post_diameter_mm : ℝ) (a : RecAcc) (r : Row) : RecAcc :=
  if isPanel r then
    { a with out_rows := a.out_rows ++ [r], panel_area := a.panel_area + r.oppervlakte }
  else
    let L_m := pyOr r.lengte 0
    let dia := pyOr r.diameter default_post_diameter_mm
    let mantle_m2 := Real.pi * dia * (L_m * 1000) / 1000000
    let r2 : Row := { r with oppervlakte := roundTo 4 mantle_m2 }
    { a with
      out_rows := a.out_rows ++ [r2]
      post_area := a.post_area + mantle_m2
      post_len_total := a.post_len_total + L_m
      overrides := dictSet a.overrides r.id dia }

/-- Return value of `recompute_surfaces` (app.py lines 314-315):
the recomputed rows, the totals, with `total = panel_area + post_area`,
and the updated override dictionary (mutated session state in the
source). -/
structure RecomputeResult where
  rows : List Row
  panel_area : ℝ
  post_area : ℝ
  total : ℝ
  post_len_total : ℝ
  overrides : List (String × ℝ)

/-- `recompute_surfaces` (app.py lines 294-315). -/
noncomputable def recompute_surfaces (default_post_diameter_mm : ℝ)
    (diameter_overrides : List (String × ℝ)) (df : List Row) : RecomputeResult :=
  let a := df.foldl (recompute_step default_post_diameter_mm) ⟨[], 0, 0, 0, diameter_overrides⟩
  { rows := a.out_rows
    panel_area := a.panel_area
    post_area := a.post_area
    total := a.panel_area + a.post_area
    post_len_total := a.post_len_total
    overrides := a.overrides }

/-- The unrounded mantle area recomputed by `recompute_surfaces` for a
non-panel row (app.py lines 304-307), as a function of the row's stored
cells. -/
noncomputable def mantleOf (default_post_diameter_mm : ℝ) (r : Row) : ℝ :=
  Real.pi * pyOr r.diameter default_post_diameter_mm * (pyOr r.lengte 0 * 1000) / 1000000

/-- How `recompute_surfaces` transforms one row: panels pass through,
other rows get their `"Oppervlakte (m²)"` cell replaced by the rounded
recomputed mantle area. -/
noncomputable def rowRecompute (default_post_diameter_mm : ℝ) (r : Row) : Row :=
  if isPanel r then r
  else { r with oppervlakte := roundTo 4 (mantleOf default_post_diameter_mm r) }

/-- The one editable interaction on the result table (app.py lines
283-291): `st.data_editor` lets the user change the `"Diameter (mm)"`
cell of a row; every other column is disabled. -/
noncomputable def setDiameter (rows : List Row) (obj_id : String) (d : ℝ) : List Row :=
  rows.map (fun r => if r.id = obj_id then { r with diameter := some d } else r)

/-- The session state touched by export/import (app.py lines 62-70):
the per-page scale table, the per-object diameter overrides, and the
last stored result rows. -/
structure SessionState where
  page_scales : List (ℤ × ℝ)
  diameter_overrides : List (String × ℝ)
  results : List Row

/-- A JSON object key as seen by the import comprehensions: either the
decimal string of an integer (the form `json.dumps` produces for an int
key, on which Python's `int` succeeds and returns that integer) or some
other raw string (on which `int` succeeds exactly when the string parses
as an integer). -/
inductive JKey where
  | intKey (n : ℤ)
  | strKey (s : String)

/-- A JSON value in the imported scale or override table: a number, a
numeric string (both accepted by Python's `float`), or anything `float`
raises on. -/
inductive JVal where
  | num (x : ℝ)
  | numStr (x : ℝ)
  | other

/-- `int(k)` on a JSON object key (app.py line 355). -/
def parseIntKey : JKey → Option ℤ
  | JKey.intKey n => some n
  | JKey.strKey s => s.toInt?

/-- `float(v)` on a JSON value (app.py lines 355-356). -/
def parseFloat : JVal → Option ℝ
  | JVal.num x => some x
  | JVal.numStr x => some x
  | JVal.other => none

/-- A parsed project JSON document (app.py lines 340-348): a field absent
from the payload is read back through `payload.get(..., default)` and is
indistinguishable from the empty table or list, so it is modelled as the
empty list. -/
structure ProjectDoc where
  page_scales : List (JKey × JVal)
  diameter_overrides : List (String × JVal)
  results : List Row
  coat_both_sides : Bool
  default_post_diameter_mm : ℝ

/-- `{int(k): float(v) for k, v in payload.get("page_scales", {}).items()}`
(app.py line 355): the comprehension yields the whole table, or raises on
the first bad entry without assigning anything. -/
def parseScalesEntries : List (JKey × JVal) → Option (List (ℤ × ℝ))
  | [] => some []
  | p :: t =>
    match parseIntKey p.1, parseFloat p.2, parseScalesEntries t with
    | some k, some v, some r => some ((k, v) :: r)
    | _, _, _ => none

/-- `{str(k): float(v) for k, v in payload.get("diameter_overrides", {}).items()}`
(app.py line 356): JSON keys are already strings, so `str(k)` is the
identity; `float(v)` may raise. -/
def parseOverrideEntries : List (String × JVal) → Option (List (String × ℝ))
  | [] => some []
  | p :: t =>
    match parseFloat p.2, parseOverrideEntries t with
    | some v, some r => some ((p.1, v) :: r)
    | _, _ => none

/-- Project import (app.py lines 352-362).  The two comprehensions are
assigned one after the other inside a single `try`: a failure in the
second one leaves the first assignment in place.  `results` is assigned
only when the document's list is non-empty (`if results:`).  The returned
flag is `true` on the `st.success` path and `false` on the `st.error`
path. -/
def importProject (doc : ProjectDoc) (s : SessionState) : SessionState × Bool :=
  match parseScalesEntries doc.page_scales with
  | none => (s, false)
  | some ps =>
    match parseOverrideEntries doc.diameter_overrides with
    | none => ({ s with page_scales := ps }, false)
    | some ovs =>
      let s1 : SessionState := { s with page_scales := ps, diameter_overrides := ovs }
      if doc.results.isEmpty then (s1, true)
      else ({ s1 with results := doc.results }, true)

/-- Project export (app.py lines 339-350): the scale table (its integer
keys are stringified by `json.dumps`), the override table, and the result
rows (`to_dict(orient="records")` on a non-empty table, `[]` on an empty
one — both coincide with the stored row list). -/
def exportDoc (coat_both_sides : Bool) (default_post_diameter_mm : ℝ)
    (s : SessionState) : ProjectDoc :=
  { page_scales := s.page_scales.map (fun p => (JKey.intKey p.1, JVal.num p.2))
    diameter_overrides := s.diameter_overrides.map (fun p => (p.1, JVal.num p.2))
    results := s.results
    coat_both_sides := coat_both_sides
    default_post_diameter_mm := default_post_diameter_mm }

/-- Concrete drawn rectangle used in witnesses: 400 × 200 px with unit
fabric scale factors (the spec's worked panel example). -/
noncomputable def oRect : CanvasObj :=
  { type := "rect"
    width := 400
    height := 200
    scaleX := 1
    scaleY := 1
    x1 := 0
    y1 := 0
    x2 := 0
    y2 := 0 }

/-- Concrete calibration line used in witnesses: from `(0,0)` to `(3,4)`,
of Euclidean length `5` px. -/
noncomputable def oCal : CanvasObj :=
  { type := "line"
    width := 0
    height := 0
    scaleX := 1
    scaleY := 1
    x1 := 0
    y1 := 0
    x2 := 3
    y2 := 4 }

/-- Concrete drawn post line used in counterexamples: vertical, from
`(0,0)` to `(0, 431.9)`, of Euclidean length `431.9` px. -/
noncomputable def oLine : CanvasObj :=
  { type := "line"
    width := 0
    height := 0
    scaleX := 1
    scaleY := 1
    x1 := 0
    y1 := 0
    x2 := 0
    y2 := 4319 / 10 }

/-- Concrete post row used in counterexamples: length cell `1.44` m,
diameter cell `200` mm. -/
noncomputable def rPost200 : Row :=
  { pagina := "p1"
    type := "Paal/Buis"
    id := "p1-post-1"
    breedte := none
    hoogte := none
    dubbelzijdig := none
    diameter := some 200
    lengte := some (36 / 25)
    oppervlakte := 0 }

/-- Concrete post row used in witnesses: length cell `1.44` m, diameter
cell `60` mm. -/
noncomputable def rPost60 : Row :=
  { pagina := "p1"
    type := "Paal/Buis"
    id := "p1-post-1"
    breedte := none
    hoogte := none
    dubbelzijdig := none
    diameter := some 60
    lengte := some (36 / 25)
    oppervlakte := 0 }

/-- `rPost60` after the user edits its diameter cell to `200`. -/
noncomputable def rPost60d : Row := { rPost60 with diameter := some 200 }

/-- Concrete panel row used as pre-existing session results in
witnesses. -/
noncomputable def rowW : Row :=
  { pagina := "p1"
    type := "Paneel"
    id := "p1-panel-1"
    breedte := some 100
    hoogte := some 50
    dubbelzijdig := some true
    diameter := none
    lengte := none
    oppervlakte := 1 / 100 }

/-- Concrete malformed import document: a well-formed scale entry
followed by an override value `float` rejects. -/
noncomputable def doc0 : ProjectDoc :=
  { page_scales := [(JKey.intKey 0, JVal.num 2)]
    diameter_overrides := [("a", JVal.other)]
    results := []
    coat_both_sides := true
    default_post_diameter_mm := 60 }

/-- Concrete session state with previously stored scale, override and an
empty result table. -/
noncomputable def s0 : SessionState :=
  { page_scales := [(7, 1)]
    diameter_overrides := [("z", 5)]
    results := [] }

/-- Concrete well-formed import document whose `results` list is
empty. -/
noncomputable def doc1 : ProjectDoc :=
  { page_scales := [(JKey.intKey 1, JVal.num (3 / 2))]
    diameter_overrides := [("p1-post-1", JVal.num 48)]
    results := []
    coat_both_sides := true
    default_post_diameter_mm := 60 }

/-- Concrete session state holding previously computed results. -/
noncomputable def s1 : SessionState :=
  { page_scales := [(0, 1)]
    diameter_overrides := []
    results := [rowW] }

/-- Auxiliary: the `(id, diameter)` pairs one pass of
`recompute_surfaces` writes into the override dictionary, in row
order (app.py line 313). -/
noncomputable def ovPairs (dflt : ℝ) (rows : List Row) : List (String × ℝ) :=
  (rows.filter (fun r => !isPanel r)).map (fun r => (r.id, pyOr r.diameter dflt))

/-- Auxiliary: the last value a sequence of dictionary writes assigns to
key `k`, if any. -/
def lastVal (ps : List (String × ℝ)) (k : String) : Option ℝ :=
  ps.foldl (fun acc p => if p.1 = k then some p.2 else acc) none

/-! ### Association-list dictionary lemmas -/

lemma dictGet_dictSet {κ : Type} [DecidableEq κ] (m : List (κ × ℝ)) (k k2 : κ) (v : ℝ) :
    dictGet (dictSet m k v) k2 = if k = k2 then some v else dictGet m k2 := by
  induction m with
  | nil => by_cases h : k = k2 <;> simp [dictSet, dictGet, h]
  | cons p t ih =>
    by_cases hp : p.1 = k
    · by_cases h : k = k2
      · simp [dictSet, dictGet, hp, h]
      · have hp2 : ¬ p.1 = k2 := by rw [hp]; exact h
        simp [dictSet, dictGet, hp, hp2, h]
    · by_cases h2 : p.1 = k2
      · have hne : ¬ k = k2 := by intro hk; exact hp (hk ▸ h2)
        have hne2 : ¬ k2 = k := fun hh => hne hh.symm
        simp [dictSet, dictGet, hp, h2, hne, hne2]
      · simp [dictSet, dictGet, hp, h2, ih]

/-! ### Lemmas about the calibration maximum scan -/

lemma ml_step_ge (a : ℝ) (o : CanvasObj) : a ≤ ml_step a o := by
  unfold ml_step
  by_cases h : o.type = "line"
  · by_cases hl : lineLen o > a <;> simp [h, hl]
    exact le_of_lt hl
  · simp [h]

lemma ml_step_bound (a : ℝ) (o : CanvasObj) (h : o.type = "line") :
    lineLen o ≤ ml_step a o := by
  unfold ml_step
  by_cases hl : lineLen o > a <;> simp [h, hl]
  exact le_of_not_lt hl

lemma le_foldl_ml (l : List CanvasObj) : ∀ a : ℝ, a ≤ l.foldl ml_step a := by
  induction l with
  | nil => intro a; simp
  | cons o t ih =>
    intro a
    calc a ≤ ml_step a o := ml_step_ge a o
    _ ≤ t.foldl ml_step (ml_step a o) := ih (ml_step a o)

lemma foldl_ml_bound (l : List CanvasObj) :
    ∀ a : ℝ, ∀ o ∈ l, o.type = "line" → lineLen o ≤ l.foldl ml_step a := by
  induction l with
  | nil => intro a o ho; simp at ho
  | cons o' t ih =>
    intro a o ho hline
    rcases List.mem_cons.mp ho with h | h
    · subst h
      calc lineLen o ≤ ml_step a o := ml_step_bound a o hline
      _ ≤ t.foldl ml_step (ml_step a o) := le_foldl_ml t (ml_step a o)
    · exact ih (ml_step a o') o h hline

lemma foldl_ml_cases (l : List CanvasObj) :
    ∀ a : ℝ, l.foldl ml_step a = a ∨
      ∃ o ∈ l, o.type = "line" ∧ l.foldl ml_step a = lineLen o := by
  induction l with
  | nil => intro a; left; rfl
  | cons o t ih =>
    intro a
    have hfold : (o :: t).foldl ml_step a = t.foldl ml_step (ml_step a o) := rfl
    rcases ih (ml_step a o) with h | ⟨o2, ho2, hline, heq⟩
    · rw [hfold, h]
      unfold ml_step
      by_cases hty : o.type = "line"
      · by_cases hl : lineLen o > a
        · right; exact ⟨o, by simp, hty, by simp [hty, hl]⟩
        · left; simp [hty, hl]
      · left; simp [hty]
    · right
      exact ⟨o2, List.mem_cons_of_mem o ho2, hline, by rw [hfold, heq]⟩

lemma max_len_pos_of_mem (objs : List CanvasObj) (o : CanvasObj)
    (ho : o ∈ objs) (hline : o.type = "line") (hpos : 0 < lineLen o) :
    0 < max_len objs :=
  lt_of_lt_of_le hpos (foldl_ml_bound objs 0 o ho hline)

lemma max_len_cases (objs : List CanvasObj) :
    max_len objs = 0 ∨
      ∃ o ∈ objs, o.type = "line" ∧ max_len objs = lineLen o :=
  foldl_ml_cases objs 0

/-! ### Indexing lemmas for the row computations -/

lemma filterMap_enumFrom_all {β : Type} (objs : List CanvasObj) (ty : String)
    (f : ℕ × CanvasObj → β) (h : ∀ o ∈ objs, o.type = ty) :
    ∀ n : ℕ,
      (objs.enumFrom n).filterMap (fun p => if p.2.type = ty then some (f p) else none) =
        (objs.enumFrom n).map f := by
  induction objs with
  | nil => intro n; rfl
  | cons o t ih =>
    intro n
    have ho : o.type = ty := h o (by simp)
    have ht : ∀ x ∈ t, x.type = ty := fun x hx => h x (by simp [hx])
    simp only [List.enumFrom, List.filterMap_cons, List.map_cons]
    simp [ho, ih ht (n + 1)]

lemma postRows_all_line (page_label : String) (dflt : ℝ) (ov : List (String × ℝ)) (px : ℝ)
    (objs : List CanvasObj) (h : ∀ o ∈ objs, o.type = "line") :
    postRows page_label dflt ov px objs =
      (objs.enumFrom 1).map (fun p => postRow page_label dflt ov px p.1 p.2) :=
  filterMap_enumFrom_all objs "line" _ h 1

lemma panelRows_all_rect (page_label : String) (coat : Bool) (px : ℝ)
    (objs : List CanvasObj) (h : ∀ o ∈ objs, o.type = "rect") :
    panelRows page_label coat px objs =
      (objs.enumFrom 1).map (fun p => panelRow page_label coat px p.1 p.2) :=
  filterMap_enumFrom_all objs "rect" _ h 1

lemma postRows_getElem (page_label : String) (dflt : ℝ) (ov : List (String × ℝ)) (px : ℝ)
    (objs : List CanvasObj) (h : ∀ o ∈ objs, o.type = "line")
    (i : ℕ) (hi : i < objs.length) :
    (postRows page_label dflt ov px objs)[i]? =
      some (postRow page_label dflt ov px (i + 1) (objs.get ⟨i, hi⟩)) := by
  rw [postRows_all_line _ _ _ _ _ h, List.getElem?_map, List.getElem?_enumFrom,
    List.getElem?_eq_getElem hi]
  simp [Nat.add_comm]

lemma panelRows_getElem (page_label : String) (coat : Bool) (px : ℝ)
    (objs : List CanvasObj) (h : ∀ o ∈ objs, o.type = "rect")
    (i : ℕ) (hi : i < objs.length) :
    (panelRows page_label coat px objs)[i]? =
      some (panelRow page_label coat px (i + 1) (objs.get ⟨i, hi⟩)) := by
  rw [panelRows_all_rect _ _ _ _ h, List.getElem?_map, List.getElem?_enumFrom,
    List.getElem?_eq_getElem hi]
  simp [Nat.add_comm]

/-! ### Characterisation of one `recompute_surfaces` pass -/

lemma rowRecompute_type (dflt : ℝ) (r : Row) : (rowRecompute dflt r).type = r.type := by
  unfold rowRecompute
  by_cases hp : isPanel r <;> simp [hp]

lemma rowRecompute_id (dflt : ℝ) (r : Row) : (rowRecompute dflt r).id = r.id := by
  unfold rowRecompute
  by_cases hp : isPanel r <;> simp [hp]

lemma rowRecompute_diameter (dflt : ℝ) (r : Row) :
    (rowRecompute dflt r).diameter = r.diameter := by
  unfold rowRecompute
  by_cases hp : isPanel r <;> simp [hp]

lemma rowRecompute_lengte (dflt : ℝ) (r : Row) :
    (rowRecompute dflt r).lengte = r.lengte := by
  unfold rowRecompute
  by_cases hp : isPanel r <;> simp [hp]

lemma rowRecompute_isPanel (dflt : ℝ) (r : Row) :
    isPanel (rowRecompute dflt r) = isPanel r := by
  unfold isPanel
  rw [rowRecompute_type]

lemma mantleOf_rowRecompute (dflt dflt2 : ℝ) (r : Row) :
    mantleOf dflt (rowRecompute dflt2 r) = mantleOf dflt r := by
  unfold mantleOf
  rw [rowRecompute_diameter, rowRecompute_lengte]

lemma rowRecompute_panel (dflt : ℝ) (r : Row) (hp : isPanel r) :
    rowRecompute dflt r = r := by
  unfold rowRecompute
  simp [hp]

lemma rowRecompute_post (dflt : ℝ) (r : Row) (hp : ¬ isPanel r = true) :
    rowRecompute dflt r = { r with oppervlakte := roundTo 4 (mantleOf dflt r) } := by
  unfold rowRecompute
  simp [hp]

lemma rowRecompute_idem (dflt : ℝ) (r : Row) :
    rowRecompute dflt (rowRecompute dflt r) = rowRecompute dflt r := by
  by_cases hp : isPanel r
  · rw [rowRecompute_panel dflt r hp, rowRecompute_panel dflt r hp]
  · have hp2 : ¬ isPanel (rowRecompute dflt r) = true := by
      rw [rowRecompute_isPanel]; exact hp
    rw [rowRecompute_post dflt _ hp2, mantleOf_rowRecompute, rowRecompute_post dflt r hp]

lemma foldl_recompute_char (dflt : ℝ) (rows : List Row) :
    ∀ a : RecAcc,
      rows.foldl (recompute_step dflt) a =
        { out_rows := a.out_rows ++ rows.map (rowRecompute dflt)
          panel_area := a.panel_area +
            ((rows.filter (fun r => isPanel r)).map (fun r => r.oppervlakte)).sum
          post_area := a.post_area + ((rows.filter (fun r => !isPanel r)).map (mantleOf dflt)).sum
          post_len_total := a.post_len_total +
            ((rows.filter (fun r => !isPanel r)).map (fun r => pyOr r.lengte 0)).sum
          overrides := rows.foldl
            (fun m r => if isPanel r then m else dictSet m r.id (pyOr r.diameter dflt))
            a.overrides } := by
  induction rows with
  | nil => intro a; simp
  | cons r t ih =>
    intro a
    have hstep : (r :: t).foldl (recompute_step dflt) a =
        t.foldl (recompute_step dflt) (recompute_step dflt a r) := rfl
    rw [hstep, ih]
    by_cases hp : isPanel r
    · simp only [recompute_step, hp, if_true, List.filter_cons, List.map_cons, List.sum_cons,
        List.foldl_cons, rowRecompute_panel dflt r hp, Bool.not_true, Bool.false_eq_true,
        if_false]
      simp only [RecAcc.mk.injEq]
      refine ⟨?_, ?_, trivial, trivial, trivial⟩
      · simp [List.append_assoc]
      · ring
    · have hp2 : isPanel r = false := Bool.eq_false_iff.mpr hp
      simp only [recompute_step, hp2, Bool.false_eq_true, if_false, List.filter_cons,
        List.map_cons, List.sum_cons, List.foldl_cons, Bool.not_false, if_true]
      simp only [RecAcc.mk.injEq]
      refine ⟨?_, trivial, ?_, ?_, trivial⟩
      · rw [rowRecompute_post dflt r (by simp [hp2])]
        simp [List.append_assoc, mantleOf]
      · simp only [mantleOf]
        ring
      · ring

lemma recompute_surfaces_rows (dflt : ℝ) (ov : List (String × ℝ)) (rows : List Row) :
    (recompute_surfaces dflt ov rows).rows = rows.map (rowRecompute dflt) := by
  unfold recompute_surfaces
  rw [foldl_recompute_char]
  simp

lemma recompute_surfaces_panel_area (dflt : ℝ) (ov : List (String × ℝ)) (rows : List Row) :
    (recompute_surfaces dflt ov rows).panel_area =
      ((rows.filter (fun r => isPanel r)).map (fun r => r.oppervlakte)).sum := by
  unfold recompute_surfaces
  rw [foldl_recompute_char]
  simp

lemma recompute_surfaces_post_area (dflt : ℝ) (ov : List (String × ℝ)) (rows : List Row) :
    (recompute_surfaces dflt ov rows).post_area =
      ((rows.filter (fun r => !isPanel r)).map (mantleOf dflt)).sum := by
  unfold recompute_surfaces
  rw [foldl_recompute_char]
  simp

lemma recompute_surfaces_post_len (dflt : ℝ) (ov : List (String × ℝ)) (rows : List Row) :
    (recompute_surfaces dflt ov rows).post_len_total =
      ((rows.filter (fun r => !isPanel r)).map (fun r => pyOr r.lengte 0)).sum := by
  unfold recompute_surfaces
  rw [foldl_recompute_char]
  simp

lemma recompute_surfaces_total (dflt : ℝ) (ov : List (String × ℝ)) (rows : List Row) :
    (recompute_surfaces dflt ov rows).total =
      (recompute_surfaces dflt ov rows).panel_area + (recompute_surfaces dflt ov rows).post_area := by
  unfold recompute_surfaces
  rw [foldl_recompute_char]

lemma recompute_surfaces_overrides (dflt : ℝ) (ov : List (String × ℝ)) (rows : List Row) :
    (recompute_surfaces dflt ov rows).overrides =
      rows.foldl (fun m r => if isPanel r then m else dictSet m r.id (pyOr r.diameter dflt)) ov := by
  unfold recompute_surfaces
  rw [foldl_recompute_char]

/-! ### The override write-back as a sequence of dictionary writes -/

lemma foldl_overrides_pairs (dflt : ℝ) (rows : List Row) :
    ∀ m : List (String × ℝ),
      rows.foldl (fun m r => if isPanel r then m else dictSet m r.id (pyOr r.diameter dflt)) m =
        (ovPairs dflt rows).foldl (fun m p => dictSet m p.1 p.2) m := by
  induction rows with
  | nil => intro m; rfl
  | cons r t ih =>
    intro m
    by_cases hp : isPanel r
    · have hov : ovPairs dflt (r :: t) = ovPairs dflt t := by
        simp [ovPairs, List.filter_cons, hp]
      simp only [List.foldl_cons, hp, if_true, hov]
      exact ih m
    · have hov : ovPairs dflt (r :: t) = (r.id, pyOr r.diameter dflt) :: ovPairs dflt t := by
        simp [ovPairs, List.filter_cons, hp]
      simp only [List.foldl_cons, hp, Bool.false_eq_true, if_false, hov]
      exact ih (dictSet m r.id (pyOr r.diameter dflt))

lemma lastVal_aux (k : String) (t : List (String × ℝ)) :
    ∀ acc : Option ℝ,
      t.foldl (fun acc p => if p.1 = k then some p.2 else acc) acc = (lastVal t k).or acc := by
  induction t with
  | nil => intro acc; simp [lastVal]
  | cons p t ih =>
    intro acc
    have hl : lastVal (p :: t) k =
        t.foldl (fun acc p => if p.1 = k then some p.2 else acc)
          (if p.1 = k then some p.2 else none) := rfl
    simp only [List.foldl_cons]
    rw [ih, hl, ih (if p.1 = k then some p.2 else none)]
    cases h : lastVal t k <;> by_cases hp : p.1 = k <;> simp [hp, Option.or]

lemma dictGet_foldl_pairs (k : String) (ps : List (String × ℝ)) :
    ∀ m : List (String × ℝ),
      dictGet (ps.foldl (fun m p => dictSet m p.1 p.2) m) k = (lastVal ps k).or (dictGet m k) := by
  induction ps with
  | nil => intro m; simp [lastVal]
  | cons p t ih =>
    intro m
    simp only [List.foldl_cons]
    rw [ih]
    have hl : lastVal (p :: t) k =
        t.foldl (fun acc q => if q.1 = k then some q.2 else acc)
          (if p.1 = k then some p.2 else none) := rfl
    rw [hl, lastVal_aux k t (if p.1 = k then some p.2 else none)]
    rw [dictGet_dictSet]
    cases h : lastVal t k <;> by_cases hp : p.1 = k <;> simp [hp, Option.or]

/-! ### Lemmas about the diameter edit -/

lemma setDiameter_eq_self (rows : List Row) (obj_id : String) (d : ℝ)
    (h : ∀ r ∈ rows, r.id = obj_id → r.diameter = some d) :
    setDiameter rows obj_id d = rows := by
  unfold setDiameter
  have : ∀ r ∈ rows, (if r.id = obj_id then { r with diameter := some d } else r) = id r := by
    intro r hr
    by_cases hid : r.id = obj_id
    · have hd := h r hr hid
      simp only [hid, if_true, id]
      cases r
      simp_all
    · simp [hid]
  rw [List.map_congr_left this, List.map_id]

lemma setDiameter_mem_diameter (rows : List Row) (obj_id : String) (d : ℝ) :
    ∀ r ∈ setDiameter rows obj_id d, r.id = obj_id → r.diameter = some d := by
  unfold setDiameter
  intro r hr hid
  rcases List.mem_map.mp hr with ⟨r0, _, heq⟩
  by_cases h0 : r0.id = obj_id
  · rw [← heq]
    simp [h0]
  · exfalso
    apply h0
    rw [← heq] at hid
    simp only [h0, if_false] at hid

/-! ### Numeric facts used by the rounding counterexamples -/

lemma round_pi_2880 : round (Real.pi * 2880) = 9048 := by
  have h1 := Real.pi_gt_d6
  have h2 := Real.pi_lt_d6
  rw [round_eq]
  have hfl : ⌊Real.pi * 2880 + 1 / 2⌋ = (9048 : ℤ) := by
    rw [Int.floor_eq_iff]
    constructor
    · push_cast
      nlinarith
    · push_cast
      nlinarith
  exact hfl

lemma round_pi_8638_3 : round (Real.pi * (8638 / 3)) = 9046 := by
  have h1 := Real.pi_gt_d6
  have h2 := Real.pi_lt_d6
  rw [round_eq]
  have hfl : ⌊Real.pi * (8638 / 3) + 1 / 2⌋ = (9046 : ℤ) := by
    rw [Int.floor_eq_iff]
    constructor
    · push_cast
      nlinarith
    · push_cast
      nlinarith
  exact hfl

lemma round_rat (q : ℝ) (z : ℤ) (h1 : (z : ℝ) ≤ q + 1 / 2) (h2 : q + 1 / 2 < z + 1) :
    round q = z := by
  rw [round_eq, Int.floor_eq_iff]
  exact ⟨h1, h2⟩

lemma roundTo3_L : roundTo 3 (4319 / 3 / 1000 : ℝ) = 36 / 25 := by
  unfold roundTo
  rw [show (4319 / 3 / 1000 : ℝ) * 10 ^ 3 = 4319 / 3 by ring]
  rw [round_rat (4319 / 3 : ℝ) 1440 (by norm_num) (by norm_num)]
  norm_num

lemma roundTo1_60 : roundTo 1 (60 : ℝ) = 60 := by
  unfold roundTo
  rw [show ((60 : ℝ) * 10 ^ 1) = 600 by ring]
  rw [round_rat (600 : ℝ) 600 (by norm_num) (by norm_num)]
  norm_num

lemma lineLen_oLine : lineLen oLine = 4319 / 10 := by
  unfold lineLen oLine
  rw [show (((0 : ℝ) - 0) ^ 2 + ((4319 / 10 : ℝ) - 0) ^ 2) = (4319 / 10) ^ 2 by ring]
  rw [Real.sqrt_sq (by norm_num)]

lemma lineLen_oCal : lineLen oCal = 5 := by
  unfold lineLen oCal
  rw [show (((3 : ℝ) - 0) ^ 2 + ((4 : ℝ) - 0) ^ 2) = (5 : ℝ) ^ 2 by norm_num]
  rw [Real.sqrt_sq (by norm_num)]

/-! ### Map/filter helpers for recomputed row lists -/

lemma filter_panel_map_rowRecompute (dflt : ℝ) (l : List Row) :
    ((l.map (rowRecompute dflt)).filter (fun r => isPanel r)) =
      (l.filter (fun r => isPanel r)).map (rowRecompute dflt) := by
  rw [List.filter_map]
  congr 1
  apply List.filter_congr
  intro r _
  simp [Function.comp, rowRecompute_isPanel]

lemma filter_post_map_rowRecompute (dflt : ℝ) (l : List Row) :
    ((l.map (rowRecompute dflt)).filter (fun r => !isPanel r)) =
      (l.filter (fun r => !isPanel r)).map (rowRecompute dflt) := by
  rw [List.filter_map]
  congr 1
  apply List.filter_congr
  intro r _
  simp [Function.comp, rowRecompute_isPanel]

lemma sum_opp_panel_map (dflt : ℝ) (l : List Row) :
    (((l.map (rowRecompute dflt)).filter (fun r => isPanel r)).map (fun r => r.oppervlakte)).sum =
      ((l.filter (fun r => isPanel r)).map (fun r => r.oppervlakte)).sum := by
  rw [filter_panel_map_rowRecompute, List.map_map]
  congr 1
  apply List.map_congr_left
  intro r hr
  have hp : isPanel r := (List.mem_filter.mp hr).2
  simp [Function.comp, rowRecompute_panel dflt r hp]

lemma sum_mantle_map (dflt : ℝ) (l : List Row) :
    (((l.map (rowRecompute dflt)).filter (fun r => !isPanel r)).map (mantleOf dflt)).sum =
      ((l.filter (fun r => !isPanel r)).map (mantleOf dflt)).sum := by
  rw [filter_post_map_rowRecompute, List.map_map]
  congr 1
  apply List.map_congr_left
  intro r _
  simp [Function.comp, mantleOf_rowRecompute]

lemma sum_lengte_map (dflt : ℝ) (l : List Row) :
    (((l.map (rowRecompute dflt)).filter (fun r => !isPanel r)).map (fun r => pyOr r.lengte 0)).sum =
      ((l.filter (fun r => !isPanel r)).map (fun r => pyOr r.lengte 0)).sum := by
  rw [filter_post_map_rowRecompute, List.map_map]
  congr 1
  apply List.map_congr_left
  intro r _
  simp [Function.comp, rowRecompute_lengte]

lemma ovPairs_map_rowRecompute (dflt : ℝ) (l : List Row) :
    ovPairs dflt (l.map (rowRecompute dflt)) = ovPairs dflt l := by
  unfold ovPairs
  rw [filter_post_map_rowRecompute, List.map_map]
  apply List.map_congr_left
  intro r _
  simp [Function.comp, rowRecompute_id, rowRecompute_diameter]

/-! ### Export/import parsing lemmas -/

lemma parseScalesEntries_export (l : List (ℤ × ℝ)) :
    parseScalesEntries (l.map (fun p => (JKey.intKey p.1, JVal.num p.2))) = some l := by
  induction l with
  | nil => rfl
  | cons p t ih => simp [parseScalesEntries, parseIntKey, parseFloat, ih]

lemma parseOverrideEntries_export (l : List (String × ℝ)) :
    parseOverrideEntries (l.map (fun p => (p.1, JVal.num p.2))) = some l := by
  induction l with
  | nil => rfl
  | cons p t ih => simp [parseOverrideEntries, parseFloat, ih]

lemma max_len_oCal : max_len [oCal] = 5 := by
  unfold max_len
  simp only [List.foldl_cons, List.foldl_nil]
  unfold ml_step
  have hty : oCal.type = "line" := rfl
  rw [if_pos hty, lineLen_oCal]
  norm_num

/-! ### Claim theorems -/

/-- C3: for every page, if at least one calibration line has positive
Euclidean pixel length and the user-entered target length is positive,
the resolver stores `px_per_mm = (maximum line length in px) / target_mm`
for that page, overwriting any prior value, and the stored value is
positive (never zero; `ℝ` has no infinite value); otherwise the stored
table is not mutated and the resolver yields the previously stored value,
`none` if never set. -/
theorem C3_scale_resolver (objs : List CanvasObj) (scale_len_mm : ℝ)
    (page_scales : List (ℤ × ℝ)) (page_idx : ℤ) :
    (((∃ o ∈ objs, o.type = "line" ∧ 0 < lineLen o) ∧ 0 < scale_len_mm) →
      resolve_scale objs scale_len_mm page_scales page_idx =
          (some (max_len objs / scale_len_mm),
            dictSet page_scales page_idx (max_len objs / scale_len_mm)) ∧
        0 < max_len objs / scale_len_mm ∧
        (∃ o ∈ objs, o.type = "line" ∧ lineLen o = max_len objs) ∧
        (∀ o ∈ objs, o.type = "line" → lineLen o ≤ max_len objs)) ∧
    ((¬ ((∃ o ∈ objs, o.type = "line" ∧ 0 < lineLen o) ∧ 0 < scale_len_mm)) →
      resolve_scale objs scale_len_mm page_scales page_idx =
        (dictGet page_scales page_idx, page_scales)) := by
  constructor
  · rintro ⟨⟨o, ho, hline, hpos⟩, htarget⟩
    have hmax : 0 < max_len objs := max_len_pos_of_mem objs o ho hline hpos
    refine ⟨?_, div_pos hmax htarget, ?_,
      fun o2 ho2 hl2 => foldl_ml_bound objs 0 o2 ho2 hl2⟩
    · unfold resolve_scale
      rw [if_pos ⟨hmax, htarget⟩]
    · rcases max_len_cases objs with h0 | ⟨o2, ho2, hl2, he2⟩
      · rw [h0] at hmax
        exact absurd hmax (lt_irrefl 0)
      · exact ⟨o2, ho2, hl2, he2.symm⟩
  · intro hneg
    have hcond : ¬ (0 < max_len objs ∧ 0 < scale_len_mm) := by
      rintro ⟨hmax, htarget⟩
      apply hneg
      refine ⟨?_, htarget⟩
      rcases max_len_cases objs with h0 | ⟨o, ho, hline, he⟩
      · rw [h0] at hmax
        exact absurd hmax (lt_irrefl 0)
      · exact ⟨o, ho, hline, he ▸ hmax⟩
    unfold resolve_scale
    rw [if_neg hcond]

/-- Witness for C3: a single calibration line of 5 px with target 1000 mm
on page 0 of an empty scale table stores the positive scale `5 / 1000`. -/
theorem C3_scale_resolver_witness :
    resolve_scale [oCal] 1000 [] 0 = (some (5 / 1000), [(0, 5 / 1000)]) ∧
      (0 : ℝ) < 5 / 1000 := by
  have h := (C3_scale_resolver [oCal] 1000 [] 0).1
    ⟨⟨oCal, by simp, rfl, by rw [lineLen_oCal]; norm_num⟩, by norm_num⟩
  rw [max_len_oCal] at h
  exact ⟨h.1, h.2.1⟩

/-- C6: exporting the project document and importing it back restores
`page_scales`, `diameter_overrides` and `results` to deeply-equal values
for every session state, independent of drawn shapes (which never enter
the document); the import takes the success path. -/
theorem C6_export_import_roundtrip (coat : Bool) (dflt : ℝ) (s : SessionState) :
    (importProject (exportDoc coat dflt s) s).1.page_scales = s.page_scales ∧
      (importProject (exportDoc coat dflt s) s).1.diameter_overrides = s.diameter_overrides ∧
      (importProject (exportDoc coat dflt s) s).1.results = s.results ∧
      (importProject (exportDoc coat dflt s) s).2 = true := by
  unfold importProject exportDoc
  simp only [parseScalesEntries_export, parseOverrideEntries_export]
  by_cases h : s.results.isEmpty <;> simp [h]

/-- C5 (amended): the import applies its fields sequentially rather than
atomically: a document whose `page_scales` fail to parse changes nothing
and reports an error; one whose `page_scales` parse but whose
`diameter_overrides` fail leaves the already-assigned scale table in
place (partial application) and reports an error; on success the scale
and override tables are replaced and `results` is replaced only when the
document's list is non-empty. -/
theorem C5_import_sequential (doc : ProjectDoc) (s : SessionState) :
    (parseScalesEntries doc.page_scales = none → importProject doc s = (s, false)) ∧
    (∀ ps, parseScalesEntries doc.page_scales = some ps →
      (parseOverrideEntries doc.diameter_overrides = none →
        importProject doc s = ({ s with page_scales := ps }, false)) ∧
      (∀ ovs, parseOverrideEntries doc.diameter_overrides = some ovs →
        importProject doc s =
          (if doc.results.isEmpty then
              { s with page_scales := ps, diameter_overrides := ovs }
            else
              { s with
                  page_scales := ps
                  diameter_overrides := ovs
                  results := doc.results },
            true))) := by
  refine ⟨fun h => by simp [importProject, h], fun ps hps => ⟨fun h => ?_, fun ovs hovs => ?_⟩⟩
  · simp [importProject, hps, h]
  · simp only [importProject, hps, hovs]
    by_cases h : doc.results.isEmpty <;> simp [h]

/-- Witness for C5 (amended): the sequential behaviour at the concrete
document `doc0`, whose override value fails to parse after a valid scale
entry. -/
theorem C5_import_sequential_witness :
    importProject doc0 s0 = ({ s0 with page_scales := [(0, 2)] }, false) :=
  ((C5_import_sequential doc0 s0).2 [(0, 2)] rfl).1 rfl

/-- C5 counterexample: importing the malformed document `doc0` reports an
error, yet `page_scales` has already been replaced while the override
table kept its old value — the claimed all-or-nothing behaviour fails. -/
theorem C5_counterexample :
    (importProject doc0 s0).2 = false ∧
      (importProject doc0 s0).1.page_scales ≠ s0.page_scales ∧
      (importProject doc0 s0).1.diameter_overrides = s0.diameter_overrides := by
  refine ⟨rfl, ?_, rfl⟩
  show [((0 : ℤ), (2 : ℝ))] ≠ [((7 : ℤ), (1 : ℝ))]
  simp

/-- C10: a successful import whose document carries an empty `results`
list (also the reading of an absent field) leaves the session's stored
results untouched and replaces only the scale and override tables. -/
theorem C10_import_empty_results (doc : ProjectDoc) (s : SessionState)
    (ps : List (ℤ × ℝ)) (ovs : List (String × ℝ))
    (hps : parseScalesEntries doc.page_scales = some ps)
    (hovs : parseOverrideEntries doc.diameter_overrides = some ovs)
    (hres : doc.results = []) :
    importProject doc s = ({ s with page_scales := ps, diameter_overrides := ovs }, true) := by
  simp [importProject, hps, hovs, hres]

/-- Witness for C10: importing `doc1` (empty results) into `s1` replaces
the two tables and keeps the stored results of `s1`. -/
theorem C10_import_empty_results_witness :
    importProject doc1 s1 =
      ({ s1 with page_scales := [(1, 3 / 2)], diameter_overrides := [("p1-post-1", 48)] }, true) :=
  C10_import_empty_results doc1 s1 [(1, 3 / 2)] [("p1-post-1", 48)] rfl rfl rfl

/-- C9 (amended): one pass of `recompute_surfaces` writes an override
entry for every non-panel row — keyed by the row id, valued at the row's
diameter cell (or the default when that cell is `None` or `0`) — whether
or not any diameter was edited; overrides are not only created on user
edits. -/
theorem C9_override_writeback (dflt : ℝ) (ov : List (String × ℝ)) (rows : List Row) :
    (recompute_surfaces dflt ov rows).overrides =
      (ovPairs dflt rows).foldl (fun m p => dictSet m p.1 p.2) ov := by
  rw [recompute_surfaces_overrides, foldl_overrides_pairs]

/-- C9 counterexample: a recomputation pass over one freshly drawn,
untouched post row, starting from an empty override store, adds an entry
to the store — contradicting the claim that a pass without edits leaves
the store unchanged. -/
theorem C9_counterexample :
    (recompute_surfaces 60 [] (postRows "p1" 60 [] (3 / 10) [oLine])).overrides ≠ [] := by
  have hall : ∀ o ∈ [oLine], o.type = "line" := by
    intro o ho
    rw [List.mem_singleton.mp ho]
    rfl
  rw [recompute_surfaces_overrides, postRows_all_line "p1" 60 [] (3 / 10) [oLine] hall]
  simp only [List.enumFrom, List.map_cons, List.map_nil]
  have hpost : isPanel (postRow "p1" 60 [] (3 / 10) 1 oLine) = false := by decide
  simp only [List.foldl_cons, List.foldl_nil, hpost, Bool.false_eq_true, if_false]
  unfold dictSet
  simp

/-- C1: for every post line segment (at index `i` of a homogeneous list
of drawn lines) on a page with resolved scale `px_per_mm > 0`, the record
is computed from `length_mm = euclidean_distance((x1,y1),(x2,y2)) /
px_per_mm`, `length_m = length_mm / 1000` and `area_m2 = π · d ·
length_mm / 1e6`, where `d` is the stored diameter override for this
post's id when one exists and otherwise the configured default; the
record stores these values after the boundary rounding (length to 3
decimals, diameter to 1, area to 4). -/
theorem C1_post_conversion (page_label : String) (default_post_diameter_mm : ℝ)
    (diameter_overrides : List (String × ℝ)) (px_per_mm : ℝ)
    (objs : List CanvasObj) (hline : ∀ o ∈ objs, o.type = "line")
    (_hpx : 0 < px_per_mm) (i : ℕ) (hi : i < objs.length) :
    ∃ r, (postRows page_label default_post_diameter_mm diameter_overrides px_per_mm objs)[i]? =
        some r ∧
      r.id = page_label ++ "-post-" ++ toString (i + 1) ∧
      r.lengte = some (roundTo 3 (lineLen (objs.get ⟨i, hi⟩) / px_per_mm / 1000)) ∧
      r.diameter = some (roundTo 1
        ((dictGet diameter_overrides
          (page_label ++ "-post-" ++ toString (i + 1))).getD default_post_diameter_mm)) ∧
      r.oppervlakte = roundTo 4
        (Real.pi *
          ((dictGet diameter_overrides
            (page_label ++ "-post-" ++ toString (i + 1))).getD default_post_diameter_mm) *
          (lineLen (objs.get ⟨i, hi⟩) / px_per_mm) / 1000000) := by
  refine ⟨postRow page_label default_post_diameter_mm diameter_overrides px_per_mm (i + 1)
      (objs.get ⟨i, hi⟩),
    postRows_getElem page_label default_post_diameter_mm diameter_overrides px_per_mm objs
      hline i hi, ?_, ?_, ?_, ?_⟩ <;>
    simp [postRow]

/-- Witness for C1: the single drawn line `oCal` (length 5 px) at scale
`1/2` px/mm with an empty override store and default diameter 60. -/
theorem C1_post_conversion_witness :
    (0 : ℝ) < 1 / 2 ∧
      ∃ r, (postRows "p1" 60 [] (1 / 2) [oCal])[0]? = some r ∧
        r.id = "p1" ++ "-post-" ++ toString (0 + 1) ∧
        r.lengte = some (roundTo 3 (lineLen ([oCal].get ⟨0, by simp⟩) / (1 / 2) / 1000)) ∧
        r.diameter = some (roundTo 1
          ((dictGet [] ("p1" ++ "-post-" ++ toString (0 + 1))).getD 60)) ∧
        r.oppervlakte = roundTo 4
          (Real.pi * ((dictGet [] ("p1" ++ "-post-" ++ toString (0 + 1))).getD 60) *
            (lineLen ([oCal].get ⟨0, by simp⟩) / (1 / 2)) / 1000000) :=
  ⟨by norm_num,
    C1_post_conversion "p1" 60 [] (1 / 2) [oCal]
      (by intro o ho; rw [List.mem_singleton.mp ho]; rfl) (by norm_num) 0 (by simp)⟩

/-- C2: for every rectangle (at index `i` of a homogeneous list of drawn
rectangles) on a page with resolved scale `px_per_mm > 0`, the record
stores `width_mm = |width_px|·scale_x/px_per_mm` and `height_mm =
|height_px|·scale_y/px_per_mm` (rounded to 1 decimal) and `area_m2 =
width_mm·height_mm/1e6` multiplied by exactly 2 iff `coat_both_sides` is
set (rounded to 4 decimals); for identical geometry the double-sided
computed area is exactly twice the single-sided one. -/
theorem C2_panel_conversion (page_label : String) (coat_both_sides : Bool) (px_per_mm : ℝ)
    (objs : List CanvasObj) (hrect : ∀ o ∈ objs, o.type = "rect")
    (_hpx : 0 < px_per_mm) (i : ℕ) (hi : i < objs.length) :
    ∃ r, (panelRows page_label coat_both_sides px_per_mm objs)[i]? = some r ∧
      r.breedte = some (roundTo 1
        (|(objs.get ⟨i, hi⟩).width| * (objs.get ⟨i, hi⟩).scaleX / px_per_mm)) ∧
      r.hoogte = some (roundTo 1
        (|(objs.get ⟨i, hi⟩).height| * (objs.get ⟨i, hi⟩).scaleY / px_per_mm)) ∧
      r.oppervlakte = roundTo 4
        (|(objs.get ⟨i, hi⟩).width| * (objs.get ⟨i, hi⟩).scaleX / px_per_mm *
            (|(objs.get ⟨i, hi⟩).height| * (objs.get ⟨i, hi⟩).scaleY / px_per_mm) / 1000000 *
          (if coat_both_sides then 2 else 1)) ∧
      panelArea true px_per_mm (objs.get ⟨i, hi⟩) =
        2 * panelArea false px_per_mm (objs.get ⟨i, hi⟩) := by
  have hpa : ∀ c : Bool, ∀ o : CanvasObj, panelArea c px_per_mm o =
      |o.width| * o.scaleX / px_per_mm * (|o.height| * o.scaleY / px_per_mm) / 1000000 *
        (if c then 2 else 1) := by
    intro c o
    unfold panelArea
    cases c <;> simp
  refine ⟨panelRow page_label coat_both_sides px_per_mm (i + 1) (objs.get ⟨i, hi⟩),
    panelRows_getElem page_label coat_both_sides px_per_mm objs hrect i hi, ?_, ?_, ?_, ?_⟩
  · simp [panelRow]
  · simp [panelRow]
  · simp only [panelRow]
    rw [hpa]
  · rw [hpa true, hpa false]
    simp
    ring

/-- Witness for C2: the 400 × 200 px rectangle `oRect` at scale 0.3
px/mm with double-sided coating on. -/
theorem C2_panel_conversion_witness :
    (0 : ℝ) < 3 / 10 ∧
      ∃ r, (panelRows "p1" true (3 / 10) [oRect])[0]? = some r ∧
        r.breedte = some (roundTo 1
          (|([oRect].get ⟨0, by simp⟩).width| * ([oRect].get ⟨0, by simp⟩).scaleX / (3 / 10))) ∧
        r.hoogte = some (roundTo 1
          (|([oRect].get ⟨0, by simp⟩).height| * ([oRect].get ⟨0, by simp⟩).scaleY / (3 / 10))) ∧
        r.oppervlakte = roundTo 4
          (|([oRect].get ⟨0, by simp⟩).width| * ([oRect].get ⟨0, by simp⟩).scaleX / (3 / 10) *
              (|([oRect].get ⟨0, by simp⟩).height| * ([oRect].get ⟨0, by simp⟩).scaleY / (3 / 10)) /
                1000000 *
            (if true then 2 else 1)) ∧
        panelArea true (3 / 10) ([oRect].get ⟨0, by simp⟩) =
          2 * panelArea false (3 / 10) ([oRect].get ⟨0, by simp⟩) :=
  ⟨by norm_num,
    C2_panel_conversion "p1" true (3 / 10) [oRect]
      (by intro o ho; rw [List.mem_singleton.mp ho]; rfl) (by norm_num) 0 (by simp)⟩

/-- C8: the id of the `i`-th record (0-based index `i`, so the 1-based
draw order `i + 1`) over a homogeneous list of drawn objects is
`"{page}-panel-{i+1}"` for rectangles and `"{page}-post-{i+1}"` for
lines; and a recomputation pass preserves every record's id, so with
unchanged shape lists (the row builders being deterministic functions)
ids are stable across recomputation. -/
theorem C8_id_scheme (page_label : String) (coat : Bool) (dflt px : ℝ)
    (ov : List (String × ℝ)) (pObjs lObjs : List CanvasObj) (rows : List Row) :
    ((∀ o ∈ pObjs, o.type = "rect") → ∀ i, i < pObjs.length →
      ((panelRows page_label coat px pObjs).map (fun r => r.id))[i]? =
        some (page_label ++ "-panel-" ++ toString (i + 1))) ∧
    ((∀ o ∈ lObjs, o.type = "line") → ∀ i, i < lObjs.length →
      ((postRows page_label dflt ov px lObjs).map (fun r => r.id))[i]? =
        some (page_label ++ "-post-" ++ toString (i + 1))) ∧
    ((recompute_surfaces dflt ov rows).rows.map (fun r => r.id) = rows.map (fun r => r.id)) := by
  refine ⟨?_, ?_, ?_⟩
  · intro h i hi
    rw [List.getElem?_map, panelRows_getElem page_label coat px pObjs h i hi]
    simp [panelRow]
  · intro h i hi
    rw [List.getElem?_map, postRows_getElem page_label dflt ov px lObjs h i hi]
    simp [postRow]
  · rw [recompute_surfaces_rows, List.map_map]
    apply List.map_congr_left
    intro r _
    simp [Function.comp, rowRecompute_id]

/-- Witness for C8: the third of three rectangles drawn on page 2 gets id
`"p2-panel-3"`. -/
theorem C8_id_scheme_witness :
    ((panelRows "p2" true (3 / 10) [oRect, oRect, oRect]).map (fun r => r.id))[2]? =
      some ("p2" ++ "-panel-" ++ toString (2 + 1)) :=
  (C8_id_scheme "p2" true 60 (3 / 10) [] [oRect, oRect, oRect] [] []).1
    (by intro o ho; simp only [List.mem_cons, List.not_mem_nil, or_false] at ho
        rcases ho with h | h | h <;> rw [h] <;> rfl)
    2 (by simp)

/-- C7 (amended): after a recomputation pass over the page's records,
`panel_area_total` is the sum of the stored `area_m2` cells over the
Panel records, `total_area = panel_area_total + post_area_total`, and
`post_length_total` is the sum of the length cells over the Post records;
`post_area_total`, however, is the sum of the unrounded recomputed mantle
areas of the Post records — each record stores only the 4-decimal
rounding of its summand, so the total is not in general the sum of the
stored `area_m2` cells. -/
theorem C7_aggregates (dflt : ℝ) (ov : List (String × ℝ)) (rows : List Row) :
    (recompute_surfaces dflt ov rows).panel_area =
        (((recompute_surfaces dflt ov rows).rows.filter (fun r => isPanel r)).map
          (fun r => r.oppervlakte)).sum ∧
      (recompute_surfaces dflt ov rows).post_area =
        (((recompute_surfaces dflt ov rows).rows.filter (fun r => !isPanel r)).map
          (mantleOf dflt)).sum ∧
      (recompute_surfaces dflt ov rows).total =
        (recompute_surfaces dflt ov rows).panel_area +
          (recompute_surfaces dflt ov rows).post_area ∧
      (recompute_surfaces dflt ov rows).post_len_total =
        (((recompute_surfaces dflt ov rows).rows.filter (fun r => !isPanel r)).map
          (fun r => pyOr r.lengte 0)).sum := by
  refine ⟨?_, ?_, recompute_surfaces_total dflt ov rows, ?_⟩
  · rw [recompute_surfaces_panel_area, recompute_surfaces_rows, sum_opp_panel_map]
  · rw [recompute_surfaces_post_area, recompute_surfaces_rows, sum_mantle_map]
  · rw [recompute_surfaces_post_len, recompute_surfaces_rows, sum_lengte_map]

/-- C7 counterexample: for the single post row `rPost200` (length cell
1.44 m, diameter cell 200 mm) the recomputed `post_area_total` is the
unrounded `π·0.288 ≈ 0.904779` while the record stores the rounded
`0.9048`; the aggregate does not equal the sum of `area_m2` over the Post
records. -/
theorem C7_counterexample :
    (recompute_surfaces 60 [] [rPost200]).post_area ≠
      (((recompute_surfaces 60 [] [rPost200]).rows.filter (fun r => !isPanel r)).map
        (fun r => r.oppervlakte)).sum := by
  have hnp : ¬ isPanel rPost200 = true := by decide
  have hm : mantleOf 60 rPost200 = Real.pi * 2880 / 10000 := by
    unfold mantleOf rPost200
    simp only [pyOr]
    norm_num
    ring
  have hlhs : (recompute_surfaces 60 [] [rPost200]).post_area = Real.pi * 2880 / 10000 := by
    rw [recompute_surfaces_post_area]
    simp only [List.filter_cons, List.filter_nil, hnp, Bool.not_true, Bool.not_false,
      decide_not, if_true]
    simp [hnp, hm]
  have hrhs : (((recompute_surfaces 60 [] [rPost200]).rows.filter (fun r => !isPanel r)).map
      (fun r => r.oppervlakte)).sum = ((9048 : ℝ)) / 10000 := by
    rw [recompute_surfaces_rows]
    simp only [List.map_cons, List.map_nil]
    rw [rowRecompute_post 60 rPost200 hnp]
    have hnp2 : ¬ isPanel { rPost200 with oppervlakte := roundTo 4 (mantleOf 60 rPost200) } = true := by
      simpa [isPanel] using hnp
    simp only [List.filter_cons, List.filter_nil, hnp2, Bool.not_true, if_true]
    simp only [hnp2, Bool.not_eq_true', if_true]
    have : roundTo 4 (mantleOf 60 rPost200) = 9048 / 10000 := by
      unfold roundTo
      rw [hm]
      rw [show (Real.pi * 2880 / 10000) * 10 ^ 4 = Real.pi * 2880 by ring]
      rw [round_pi_2880]
      norm_num
    simp [this]
  rw [hlhs, hrhs]
  intro h
  have h2 : Real.pi * 2880 = 9048 := by
    field_simp at h
    linarith
  have := Real.pi_lt_d6
  nlinarith

/-- C4 (amended): setting a diameter override and recomputing is
idempotent — doing the edit-and-recompute a second time returns the same
rows and an extensionally equal override store, hence the same areas —
but a recomputation does consume the row's stored, already-rounded cells:
the recomputed area of a post row is `round4(π · d_cell · (L_cell·1000) /
1e6)` computed from the rounded `"Diameter (mm)"` and `"Lengte (m)"`
cells, not from unrounded intermediates. -/
theorem C4_override_recompute (dflt : ℝ) (ov : List (String × ℝ)) (rows : List Row)
    (obj_id : String) (d : ℝ) (r : Row)
    (hr : r ∈ setDiameter rows obj_id d) (hp : ¬ isPanel r = true) :
    ((recompute_surfaces dflt
        ((recompute_surfaces dflt ov (setDiameter rows obj_id d)).overrides)
        (setDiameter ((recompute_surfaces dflt ov (setDiameter rows obj_id d)).rows)
          obj_id d)).rows =
      (recompute_surfaces dflt ov (setDiameter rows obj_id d)).rows) ∧
    (∀ k, dictGet ((recompute_surfaces dflt
        ((recompute_surfaces dflt ov (setDiameter rows obj_id d)).overrides)
        (setDiameter ((recompute_surfaces dflt ov (setDiameter rows obj_id d)).rows)
          obj_id d)).overrides) k =
      dictGet ((recompute_surfaces dflt ov (setDiameter rows obj_id d)).overrides) k) ∧
    rowRecompute dflt r ∈ (recompute_surfaces dflt ov (setDiameter rows obj_id d)).rows ∧
    (rowRecompute dflt r).oppervlakte =
      roundTo 4 (Real.pi * pyOr r.diameter dflt * (pyOr r.lengte 0 * 1000) / 1000000) := by
  have hL2 : setDiameter ((recompute_surfaces dflt ov (setDiameter rows obj_id d)).rows)
      obj_id d = (setDiameter rows obj_id d).map (rowRecompute dflt) := by
    rw [recompute_surfaces_rows]
    apply setDiameter_eq_self
    intro r2 hr2 hid
    rcases List.mem_map.mp hr2 with ⟨r0, hr0, heq⟩
    have hid0 : r0.id = obj_id := by
      rw [← heq, rowRecompute_id] at hid
      exact hid
    have hd0 : r0.diameter = some d :=
      setDiameter_mem_diameter rows obj_id d r0 hr0 hid0
    rw [← heq, rowRecompute_diameter]
    exact hd0
  refine ⟨?_, ?_, ?_, ?_⟩
  · rw [recompute_surfaces_rows, hL2, recompute_surfaces_rows, List.map_map]
    apply List.map_congr_left
    intro r0 _
    exact rowRecompute_idem dflt r0
  · intro k
    simp only [recompute_surfaces_overrides, foldl_overrides_pairs, hL2,
      ovPairs_map_rowRecompute]
    rw [dictGet_foldl_pairs, dictGet_foldl_pairs]
    cases h : lastVal (ovPairs dflt (setDiameter rows obj_id d)) k <;> simp [Option.or]
  · rw [recompute_surfaces_rows]
    exact List.mem_map.mpr ⟨r, hr, rfl⟩
  · rw [rowRecompute_post dflt r hp]
    rfl

/-- Witness for C4 (amended): the single post row `rPost60`, edited to a
200 mm diameter; the recomputed record is present and its stored area is
the rounding of the value computed from the row's stored cells. -/
theorem C4_override_recompute_witness :
    rowRecompute 60 rPost60d ∈
        (recompute_surfaces 60 [] (setDiameter [rPost60] "p1-post-1" 200)).rows ∧
      (rowRecompute 60 rPost60d).oppervlakte =
        roundTo 4 (Real.pi * pyOr rPost60d.diameter 60 * (pyOr rPost60d.lengte 0 * 1000) / 1000000) := by
  have hset : setDiameter [rPost60] "p1-post-1" 200 = [rPost60d] := by
    unfold setDiameter
    simp only [List.map_cons, List.map_nil]
    rw [if_pos (show rPost60.id = "p1-post-1" from rfl)]
    rfl
  have hr : rPost60d ∈ setDiameter [rPost60] "p1-post-1" 200 := by
    rw [hset]
    exact List.mem_singleton.mpr rfl
  have hp : ¬ isPanel rPost60d = true := by decide
  have h := C4_override_recompute 60 [] [rPost60] "p1-post-1" 200 rPost60d hr hp
  exact ⟨h.2.2.1, h.2.2.2⟩

lemma postRow_oLine :
    postRow "p1" 60 [] (3 / 10) 1 oLine =
      { rPost60 with oppervlakte := roundTo 4 (Real.pi * 60 * (4319 / 3) / 1000000) } := by
  simp only [postRow]
  rw [lineLen_oLine]
  have h1 : (4319 / 10 : ℝ) / (3 / 10) = 4319 / 3 := by norm_num
  rw [h1]
  have hid : "p1" ++ "-post-" ++ toString 1 = "p1-post-1" := by decide
  rw [hid]
  simp only [dictGet, Option.getD_none, roundTo3_L, roundTo1_60]
  rfl

/-- C4 counterexample: draw `oLine` (431.9 px) at scale 0.3 px/mm (so
`length_mm = 4319/3 ≈ 1439.667`, stored rounded as 1.440 m), set the
diameter override to 200 and recompute: the recomputed stored area is
`round4(π·200·1440/1e6) = 0.9048`, while computing from the unrounded
intermediate length gives `round4(π·200·(4319/3)/1e6) = 0.9046` — the
recomputation consumes previously rounded values, contradicting the
claim. -/
theorem C4_counterexample :
    ((recompute_surfaces 60 []
        (setDiameter (postRows "p1" 60 [] (3 / 10) [oLine]) "p1-post-1" 200)).rows.map
      (fun r => r.oppervlakte)) ≠
    [roundTo 4 (Real.pi * 200 * (lineLen oLine / (3 / 10)) / 1000000)] := by
  have hrows : postRows "p1" 60 [] (3 / 10) [oLine] =
      [{ rPost60 with oppervlakte := roundTo 4 (Real.pi * 60 * (4319 / 3) / 1000000) }] := by
    have hall : ∀ o ∈ [oLine], o.type = "line" := by
      intro o ho
      rw [List.mem_singleton.mp ho]
      rfl
    rw [postRows_all_line "p1" 60 [] (3 / 10) [oLine] hall]
    simp only [List.enumFrom, List.map_cons, List.map_nil]
    rw [postRow_oLine]
  have hset : setDiameter
      [{ rPost60 with oppervlakte := roundTo 4 (Real.pi * 60 * (4319 / 3) / 1000000) }]
      "p1-post-1" 200 =
      [{ rPost60d with oppervlakte := roundTo 4 (Real.pi * 60 * (4319 / 3) / 1000000) }] := by
    unfold setDiameter
    simp only [List.map_cons, List.map_nil]
    rw [if_pos (show ({ rPost60 with
      oppervlakte := roundTo 4 (Real.pi * 60 * (4319 / 3) / 1000000) } : Row).id = "p1-post-1" from rfl)]
    rfl
  have hnp : ¬ isPanel { rPost60d with
      oppervlakte := roundTo 4 (Real.pi * 60 * (4319 / 3) / 1000000) } = true := by
    have h1 : ({ rPost60d with
        oppervlakte := roundTo 4 (Real.pi * 60 * (4319 / 3) / 1000000) } : Row).type =
      "Paal/Buis" := rfl
    have h2 : rPost60d.type = "Paal/Buis" := rfl
    simp [isPanel, h1, h2]
  have hmant : mantleOf 60 { rPost60d with
      oppervlakte := roundTo 4 (Real.pi * 60 * (4319 / 3) / 1000000) } =
      Real.pi * 2880 / 10000 := by
    unfold mantleOf rPost60d rPost60
    simp only [pyOr]
    norm_num
    ring
  have hround : roundTo 4 (Real.pi * 2880 / 10000) = 9048 / 10000 := by
    unfold roundTo
    rw [show (Real.pi * 2880 / 10000) * 10 ^ 4 = Real.pi * 2880 by ring, round_pi_2880]
    norm_num
  have hlhs : ((recompute_surfaces 60 []
      (setDiameter (postRows "p1" 60 [] (3 / 10) [oLine]) "p1-post-1" 200)).rows.map
        (fun r => r.oppervlakte)) = [roundTo 4 (Real.pi * 2880 / 10000)] := by
    rw [hrows, hset, recompute_surfaces_rows]
    simp only [List.map_cons, List.map_nil]
    rw [rowRecompute_post 60 _ hnp]
    simp only [hmant]
  have hrhs : roundTo 4 (Real.pi * 200 * (lineLen oLine / (3 / 10)) / 1000000) =
      9046 / 10000 := by
    rw [lineLen_oLine]
    unfold roundTo
    rw [show (Real.pi * 200 * ((4319 / 10) / (3 / 10)) / 1000000) * 10 ^ 4 =
      Real.pi * (8638 / 3) by ring]
    rw [round_pi_8638_3]
    norm_num
  rw [hlhs, hround, hrhs]
  intro h
  rw [List.cons.injEq] at h
  have h2 := h.1
  norm_num at h2
